import Mathlib

/-!
Shallow embedding of the backend integration gateway in
`functions/index.js`: the Ingram Micro token cache (`getAccessToken`),
the gateway endpoints (`searchProducts`, `getPriceAndAvailability`),
the distributor webhook (`ingramWebhook`), the Stripe checkout
orchestrator (`createCheckoutSession`) and the Stripe payment webhook
(`stripeWebhook`).  JavaScript numbers are modelled as exact rationals,
with an explicit IEEE-754 double-rounding function where the source's
floating-point arithmetic matters; fallible external calls (credential
exchange, upstream API, Firestore writes, Stripe session creation) are
modelled as boolean/`Except` parameters supplied by the environment;
the Firestore `orders` and `ingram_events` collections are explicit
lists threaded through the handlers.
-/

namespace Pandishu

/-- JSON values, at the abstract-syntax-tree level.  The source passes
JSON through `JSON.stringify`/`JSON.parse`, which round-trips these
values exactly, so the textual layer is modelled by the tree itself. -/
inductive Json where
  | str (s : String)
  | num (q : ℚ)
  | arr (xs : List Json)
  | obj (fields : List (String × Json))

/-- A cart item as sent by the storefront to `createCheckoutSession`:
`{ sku, name, vendor, price, quantity }` (the spec calls the price
field `unitPrice`). -/
structure CartItem where
  sku : String
  name : String
  vendor : String
  price : ℚ
  quantity : Int
deriving DecidableEq

/-! ## Distributor gateway client: `searchProducts` (lines 77-112) -/

/-- The query string of a `searchProducts` request.  `none` in
`pageNumber`/`pageSize` models a parameter that is absent or
non-numeric, for which `parseInt` yields `NaN` (falsy); `none` in
`keyword`/`vendor` models an absent parameter. -/
structure SearchQuery where
  keyword : Option String
  vendor : Option String
  pageNumber : Option Int
  pageSize : Option Int

/-- The `opts` object sent to the distributor catalog API. -/
structure SearchOpts where
  keyword : Option (List String)
  vendor : Option (List String)
  pageNumber : Int
  pageSize : Int
deriving DecidableEq

/-- `opts` as built on lines 85-90:
`keyword: req.query.keyword ? [req.query.keyword] : undefined` (the
empty string is falsy), `pageNumber: parseInt(req.query.pageNumber) || 1`
(`NaN` and `0` are falsy, so both default to 1), and
`pageSize: Math.min(parseInt(req.query.pageSize) || 24, 100)`. -/
def searchOptsOf (q : SearchQuery) : SearchOpts where
  keyword := match q.keyword with
    | some k => if k = "" then none else some [k]
    | none => none
  vendor := match q.vendor with
    | some v => if v = "" then none else some [v]
    | none => none
  pageNumber := match q.pageNumber with
    | some n => if n = 0 then 1 else n
    | none => 1
  pageSize := min (match q.pageSize with
    | some n => if n = 0 then 24 else n
    | none => 24) 100

/-- Observable outcome of a gateway endpoint call: the HTTP status,
whether `getApiClient` (hence the token exchange path) was entered,
whether the distributor API itself was called, and the `opts` the
distributor call was given. -/
structure GatewayOutcome where
  status : Nat
  tokenRequested : Bool
  upstreamCalled : Bool
  sentOpts : Option SearchOpts
deriving DecidableEq

/-- `searchProducts` (lines 77-112), for a `GET` request.
`tokenOk` models whether `getApiClient`/`getAccessToken` succeeds and
`upstreamOk` whether `getResellerV6Productsearch` succeeds; a rejection
of either promise is caught and answered with status 500. -/
def searchProducts (q : SearchQuery) (tokenOk upstreamOk : Bool) : GatewayOutcome :=
  if tokenOk then
    if upstreamOk then ⟨200, true, true, some (searchOptsOf q)⟩
    else ⟨500, true, true, some (searchOptsOf q)⟩
  else ⟨500, true, false, none⟩

/-! ## Distributor gateway client: `getPriceAndAvailability` (lines 118-155) -/

/-- Observable outcome of `getPriceAndAvailability`. -/
structure PAOutcome where
  status : Nat
  tokenRequested : Bool
  upstreamCalled : Bool
deriving DecidableEq

/-- `getPriceAndAvailability` (lines 118-155), for a `POST` request.
`skus = none` models a body whose `skus` field is missing or not an
array.  Validation (400 on an empty list, 400 on more than 50 skus)
happens before `getApiClient`, so a rejected input performs neither a
token exchange nor a distributor call. -/
def getPriceAndAvailability (skus : Option (List String)) (tokenOk upstreamOk : Bool) :
    PAOutcome :=
  match skus with
  | none => ⟨400, false, false⟩
  | some l =>
    if l.length = 0 then ⟨400, false, false⟩
    else if l.length > 50 then ⟨400, false, false⟩
    else if tokenOk then
      if upstreamOk then ⟨200, true, true⟩ else ⟨500, true, true⟩
    else ⟨500, true, false⟩

end Pandishu

namespace Pandishu

/-! ## Credential cache: `getAccessToken` (lines 17-45) -/

/-- The body of a successful credential-exchange response.  The code
reads only `data.access_token`; the upstream response also declares the
token's validity window (`expires_in`, in seconds), which the code
ignores — it caches for a fixed 55 minutes instead (line 40, with the
comment that the token lasts 60 minutes). -/
structure ExchangeData where
  access_token : String
  expires_in : Int
deriving DecidableEq

/-- The module-level token cache (lines 18-19): `cachedToken = none`
models `null`. -/
structure TokenCache where
  cachedToken : Option String
  tokenExpiry : Int
deriving DecidableEq

/-- Outcome of one `getAccessToken` call: the resolved or rejected
value, the cache state afterwards, and whether a credential exchange
was performed. -/
structure TokenResult where
  result : Except String String
  cache : TokenCache
  exchanged : Bool

/-- The exchange path of `getAccessToken` (lines 29-44): on error the
promise is rejected with `Auth error: ...` and the cache is untouched;
on success the token is cached and `tokenExpiry` is set to the callback
time plus `55 * 60 * 1000` milliseconds, regardless of the window the
upstream declared. -/
def fetchToken (nowCb : Int) (exchange : Except String ExchangeData) (s : TokenCache) :
    TokenResult :=
  match exchange with
  | .error msg => ⟨.error ("Auth error: " ++ msg), s, true⟩
  | .ok data =>
    ⟨.ok data.access_token, ⟨some data.access_token, nowCb + 55 * 60 * 1000⟩, true⟩

/-- `getAccessToken` (lines 24-45).  `now` is `Date.now()` at the cache
check on line 25 and `nowCb` is `Date.now()` inside the exchange
callback on line 40; `exchange` is the result the upstream exchange
would deliver. -/
def getAccessToken (now nowCb : Int) (exchange : Except String ExchangeData)
    (s : TokenCache) : TokenResult :=
  match s.cachedToken with
  | some t => if now < s.tokenExpiry then ⟨.ok t, s, false⟩ else fetchToken nowCb exchange s
  | none => fetchToken nowCb exchange s

/-- Modelled from the spec: the expiry the spec prescribes for a fresh
token, `expiresAt = now + validityWindow - safetyMargin`, with the
upstream-declared validity window in milliseconds and the spec's
default 5-minute safety margin. -/
def specExpiresAt (now validityWindowMs : Int) : Int :=
  now + validityWindowMs - 5 * 60 * 1000

/-! ## Concurrency model of the token cache (C2)

`getAccessToken` has one suspension point: between the synchronous
cache check on line 25 and the resolution of the exchange callback,
other calls may run.  A system state holds the shared module-level
cache, the phase of each in-flight logical call, and a counter of the
credential exchanges started so far; a schedule interleaves the calls'
atomic steps. -/

/-- Phase of one logical `getAccessToken` call: not yet at the cache
check, suspended awaiting its exchange callback, or returned. -/
inductive CallState where
  | pending
  | awaiting
  | returned (r : Except String String)

/-- Shared state: the module-level cache, the in-flight calls, and the
number of credential exchanges started (calls to `api.getAccesstoken`,
line 31). -/
structure TokenSystem where
  cache : TokenCache
  calls : List CallState
  exchanges : Nat

/-- One atomic step of some call `i`: `check i now` runs lines 25-31
(the cache check, and on a miss the start of an exchange) at time
`now`; `resolve i now resp` runs the exchange callback of lines 32-42
at time `now` with upstream response `resp`. -/
inductive TokenAction where
  | check (i : Nat) (now : Int)
  | resolve (i : Nat) (now : Int) (resp : Except String ExchangeData)

/-- The interleaving semantics of `getAccessToken`.  A `check` of a
pending call returns the cached token when `cachedToken` is set and
`now < tokenExpiry`, and otherwise starts a new credential exchange; a
`resolve` of an awaiting call installs the token and a 55-minute expiry
into the shared cache on success, and on failure rejects that call
leaving the cache untouched.  Steps of calls not in the right phase do
nothing. -/
def tokenStep (s : TokenSystem) : TokenAction → TokenSystem
  | .check i now =>
    match s.calls[i]? with
    | some .pending =>
      match s.cache.cachedToken with
      | some t =>
        if now < s.cache.tokenExpiry then
          { s with calls := s.calls.set i (.returned (.ok t)) }
        else
          { s with calls := s.calls.set i .awaiting, exchanges := s.exchanges + 1 }
      | none =>
        { s with calls := s.calls.set i .awaiting, exchanges := s.exchanges + 1 }
    | _ => s
  | .resolve i now resp =>
    match s.calls[i]? with
    | some .awaiting =>
      match resp with
      | .ok d =>
        { cache := ⟨some d.access_token, now + 55 * 60 * 1000⟩,
          calls := s.calls.set i (.returned (.ok d.access_token)),
          exchanges := s.exchanges }
      | .error m =>
        { s with calls := s.calls.set i (.returned (.error ("Auth error: " ++ m))) }
    | _ => s

/-- Run a schedule of interleaved steps. -/
def tokenRun (s : TokenSystem) : List TokenAction → TokenSystem
  | [] => s
  | a :: rest => tokenRun (tokenStep s a) rest

/-- Initial state for `n` concurrent calls arriving while no token has
ever been cached (`cachedToken = null`, `tokenExpiry = 0`). -/
def initTokenSystem (n : Nat) : TokenSystem :=
  ⟨⟨none, 0⟩, List.replicate n .pending, 0⟩

/-- The result delivered to call `i`, once it has returned. -/
def callResult (s : TokenSystem) (i : Nat) : Option (Except String String) :=
  match s.calls[i]? with
  | some (.returned r) => some r
  | _ => none

/-! ## IEEE-754 double-precision arithmetic, exactly

JavaScript numbers are binary64 floating-point values.  Every finite
double is a rational, and for the magnitudes involved here (normal,
far from overflow) the double nearest to a rational `x` is obtained by
rounding `x` at 53 significant bits with ties to even.  `toFloat64`
computes that rounding exactly on `ℚ`. -/

/-- Round to the nearest integer, ties to even (the IEEE-754 default).
-/
def rne (q : ℚ) : ℤ :=
  if q - ⌊q⌋ < 1/2 then ⌊q⌋
  else if 1/2 < q - ⌊q⌋ then ⌊q⌋ + 1
  else if ⌊q⌋ % 2 = 0 then ⌊q⌋ else ⌊q⌋ + 1

/-- The double nearest to a positive rational `x`: with `e = ⌊log2 x⌋`,
round the 53-bit significand `x / 2 ^ (e - 52)` to the nearest integer,
ties to even. -/
def toFloat64Pos (x : ℚ) : ℚ :=
  ((rne (x * 2 ^ ((52 : ℤ) - Int.log 2 x)) : ℚ)) * 2 ^ (Int.log 2 x - 52)

/-- The double nearest to a rational. -/
def toFloat64 (x : ℚ) : ℚ :=
  if x = 0 then 0 else if x < 0 then - toFloat64Pos (-x) else toFloat64Pos x

/-- `Math.round`: the nearest integer, ties toward positive infinity.
-/
def jsRound (q : ℚ) : ℤ := ⌊q + 1/2⌋

/-! ## Checkout orchestrator: `createCheckoutSession` (lines 207-272) -/

/-- `customer.address` as read on lines 254-259.  `notes` may be
absent (`shipping_notes: customer.address.notes || ''`). -/
structure Address where
  street : String
  colonia : String
  zip : String
  city : String
  state : String
  notes : Option String

/-- `customer` as read on lines 251-262; `address = none` models a
customer object without an `address` field. -/
structure Customer where
  name : String
  email : String
  phone : String
  address : Option Address

/-- The request body of `createCheckoutSession`: `items = none` models
a body with no (or a null) `items` field, `customer = none` a body with
no `customer` object. -/
structure CheckoutBody where
  items : Option (List CartItem)
  customer : Option Customer

/-- A key lookup in a JSON object, first match wins. -/
def jlookup (k : String) : List (String × Json) → Option Json
  | [] => none
  | (k2, v) :: rest => if k2 = k then some v else jlookup k rest

/-- The compact item serialized into the session metadata on line 260:
`{ sku: i.sku, qty: i.quantity, price: i.price, name: i.name,
vendor: i.vendor }`. -/
def itemToJson (i : CartItem) : Json :=
  .obj [("sku", .str i.sku), ("qty", .num (i.quantity : ℚ)), ("price", .num i.price),
    ("name", .str i.name), ("vendor", .str i.vendor)]

/-- `JSON.stringify(items.map(..))` (line 260), at AST level. -/
def itemsToJson (items : List CartItem) : Json :=
  .arr (items.map itemToJson)

/-- The `{sku, quantity, unitPrice, name, vendor}` tuple of an item as
the spec names it (`qty`/`price` in the code). -/
structure OrderItem where
  sku : String
  qty : ℚ
  price : ℚ
  name : String
  vendor : String
deriving DecidableEq

/-- The tuple of a cart item. -/
def orderItemOf (i : CartItem) : OrderItem :=
  ⟨i.sku, (i.quantity : ℚ), i.price, i.name, i.vendor⟩

/-- Reading one parsed metadata item back as its
`{sku, qty, price, name, vendor}` tuple; `none` when the JSON does not
have that shape. -/
def orderItemOfJson : Json → Option OrderItem
  | .obj fs =>
    match jlookup "sku" fs, jlookup "qty" fs, jlookup "price" fs,
        jlookup "name" fs, jlookup "vendor" fs with
    | some (.str s), some (.num q), some (.num p), some (.str n), some (.str v) =>
      some ⟨s, q, p, n, v⟩
    | _, _, _, _, _ => none
  | _ => none

/-- Reading a list of parsed metadata items back as tuples. -/
def orderItemsOfJsonList : List Json → Option (List OrderItem)
  | [] => some []
  | j :: rest =>
    match orderItemOfJson j, orderItemsOfJsonList rest with
    | some i, some is => some (i :: is)
    | _, _ => none

/-- Reading the parsed `items_json` value back as a list of
`{sku, qty, price, name, vendor}` tuples. -/
def orderItemsOfJson : Json → Option (List OrderItem)
  | .arr xs => orderItemsOfJsonList xs
  | _ => none

/-- `unit_amount: Math.round(item.price * 100)` (line 235): the
product is computed in double precision, then rounded half-up.  In the
live system `item.price` is itself a double. -/
def unitAmount (price : ℚ) : ℤ := jsRound (toFloat64 (price * 100))

/-- Modelled from the spec: the amount the spec prescribes for a line
item, `unitPrice * 100` rounded to the nearest integer in exact
arithmetic (ties up, as in the spec scenario `round(19.995*100) =
2000`). -/
def specUnitAmount (unitPrice : ℚ) : ℤ := jsRound (unitPrice * 100)

/-- A Stripe line item as built on lines 222-239. -/
structure LineItem where
  name : String
  description : String
  sku : String
  vendor : String
  unit_amount : ℤ
  quantity : Int
deriving DecidableEq

/-- The line item of a cart item (lines 222-239). -/
def lineItemOf (i : CartItem) : LineItem :=
  ⟨i.name, "SKU: " ++ i.sku ++ " | Vendor: " ++ i.vendor, i.sku, i.vendor,
    unitAmount i.price, i.quantity⟩

/-- The session `metadata` object (lines 250-261).  In the live system
every value is a string; `items_json = some j` models a string that
parses to the JSON value `j`, and `items_json = none` a value that is
absent or does not parse as JSON. -/
structure SessionMetadata where
  customer_name : String
  customer_email : String
  customer_phone : String
  shipping_street : String
  shipping_colonia : String
  shipping_zip : String
  shipping_city : String
  shipping_state : String
  shipping_notes : String
  items_json : Option Json

/-- The metadata built on lines 250-261 for a request with a present
customer and address. -/
def metadataOf (c : Customer) (a : Address) (items : List CartItem) : SessionMetadata :=
  ⟨c.name, c.email, c.phone, a.street, a.colonia, a.zip, a.city, a.state,
    a.notes.getD "", some (itemsToJson items)⟩

/-- Observable outcome of `createCheckoutSession`: the HTTP status,
whether `stripe.checkout.sessions.create` was invoked, and the line
items and metadata passed to it. -/
structure CheckoutOutcome where
  status : Nat
  stripeCalled : Bool
  lineItems : Option (List LineItem)
  metadata : Option SessionMetadata

/-- `createCheckoutSession` (lines 207-272), for a `POST` request.
With Stripe unconfigured the handler answers 500 before looking at the
body; an absent or empty `items` list is answered 400; a missing
`customer` or `customer.address` raises a `TypeError` while the
arguments of `sessions.create` are evaluated (lines 251-259), caught on
line 267 and answered 500 — before Stripe is ever called.  `stripeOk`
models whether `stripe.checkout.sessions.create` succeeds; its
rejection is answered 500 by the same catch. -/
def createCheckoutSession (stripeConfigured : Bool) (body : CheckoutBody)
    (stripeOk : Bool) : CheckoutOutcome :=
  if stripeConfigured then
    match body.items with
    | none => ⟨400, false, none, none⟩
    | some items =>
      if items.length = 0 then ⟨400, false, none, none⟩
      else
        match body.customer with
        | none => ⟨500, false, none, none⟩
        | some c =>
          match c.address with
          | none => ⟨500, false, none, none⟩
          | some a =>
            if stripeOk then
              ⟨200, true, some (items.map lineItemOf), some (metadataOf c a items)⟩
            else
              ⟨500, true, some (items.map lineItemOf), some (metadataOf c a items)⟩
  else ⟨500, false, none, none⟩

/-! ## Payment event consumer: `stripeWebhook` (lines 278-341) -/

/-- The checkout session carried by a completion event
(`event.data.object`): processor-assigned id, payment reference,
authoritative total in cents, and the metadata attached at session
creation. -/
structure Session where
  id : String
  payment_intent : String
  amount_total : Int
  metadata : SessionMetadata

/-- A Stripe event, as yielded by `stripe.webhooks.constructEvent`. -/
structure StripeEvent where
  type : String
  session : Session

/-- `customerInfo` of an order document (lines 311-315). -/
structure CustomerInfo where
  name : String
  email : String
  phone : String
deriving DecidableEq

/-- `shippingAddress` of an order document (lines 316-323). -/
structure ShippingAddress where
  street : String
  colonia : String
  zip : String
  city : String
  state : String
  notes : String
deriving DecidableEq

/-- An order document of the `orders` collection (lines 305-326);
`createdAt` is a server-assigned timestamp and is not modelled as a
value. -/
structure Order where
  stripeSessionId : String
  paymentIntentId : String
  amountTotal : ℚ
  status : String
  customerInfo : CustomerInfo
  shippingAddress : ShippingAddress
  items : Json
  ingramStatus : String

/-- The order document built from a completed session whose
`items_json` parsed to `itemsJson` (lines 305-326): `status: 'paid'`,
`ingramStatus: 'pending'`, `amountTotal: session.amount_total / 100`
(modelled as the exact quotient). -/
def orderOf (s : Session) (itemsJson : Json) : Order :=
  ⟨s.id, s.payment_intent, (s.amount_total : ℚ) / 100, "paid",
    ⟨s.metadata.customer_name, s.metadata.customer_email, s.metadata.customer_phone⟩,
    ⟨s.metadata.shipping_street, s.metadata.shipping_colonia, s.metadata.shipping_zip,
      s.metadata.shipping_city, s.metadata.shipping_state, s.metadata.shipping_notes⟩,
    itemsJson, "pending"⟩

/-- Outcome of one `stripeWebhook` delivery: the HTTP status and the
`orders` collection afterwards. -/
structure WebhookOutcome where
  status : Nat
  orders : List Order

/-- `stripeWebhook` (lines 278-341).  With Stripe unconfigured: 500
before anything else.  A failed signature verification
(`constructEvent` throws): 400, nothing else happens.  A verified
event that is not `checkout.session.completed` is acknowledged with
200.  For a completion event the order document is built — parsing
`metadata.items_json` with `JSON.parse`; if that throws (absent or
unparsable value, `items_json = none`) the `catch` on line 334 answers
500 with no write — and appended to `orders` with `add`; a failed
write answers 500, a successful one falls through to the final 200
acknowledgement. -/
def stripeWebhook (stripeConfigured sigOk : Bool) (event : StripeEvent)
    (writeOk : Bool) (orders : List Order) : WebhookOutcome :=
  if stripeConfigured then
    if sigOk then
      if event.type = "checkout.session.completed" then
        match event.session.metadata.items_json with
        | none => ⟨500, orders⟩
        | some j =>
          if writeOk then ⟨200, orders ++ [orderOf event.session j]⟩
          else ⟨500, orders⟩
      else ⟨200, orders⟩
    else ⟨400, orders⟩
  else ⟨500, orders⟩

/-- The number of orders recorded for a given session identifier. -/
def ordersForSession (sid : String) (orders : List Order) : Nat :=
  (orders.filter (fun o => o.stripeSessionId = sid)).length

/-- The `orders` collection after `k` sequential deliveries of the
same event. -/
def deliverRepeated (cfg sig : Bool) (event : StripeEvent) (writeOk : Bool) :
    Nat → List Order → List Order
  | 0, orders => orders
  | k + 1, orders =>
    deliverRepeated cfg sig event writeOk k (stripeWebhook cfg sig event writeOk orders).orders

/-! ## Distributor event sink: `ingramWebhook` (lines 162-186) -/

/-- JavaScript truthiness of a JSON field holding a string:
`undefined`, a missing field and the empty string are falsy. -/
def truthyStr : Option Json → Option String
  | some (.str s) => if s = "" then none else some s
  | _ => none

/-- `event.topic || event.eventType || 'unknown'` (line 177), for
bodies whose `topic`/`eventType` fields, when present, are strings. -/
def ingramEventType (e : Json) : String :=
  match e with
  | .obj fs =>
    ((truthyStr (jlookup "topic" fs)).orElse
      (fun _ => truthyStr (jlookup "eventType" fs))).getD "unknown"
  | _ => "unknown"

/-- A record of the `ingram_events` audit collection (lines 175-179);
`receivedAt` is a server-assigned timestamp and is not modelled as a
value. -/
structure EventRecord where
  eventType : String
  rawPayload : Json

/-- Outcome of one `ingramWebhook` delivery: the HTTP status, the
audit log afterwards, and whether the signature-mismatch warning was
logged. -/
structure IngramOutcome where
  status : Nat
  log : List EventRecord
  warned : Bool

/-- `ingramWebhook` (lines 162-186), for a `POST` request.  `keySet`
models a non-empty `INGRAM_SECRET_KEY`, `sigPresent` a non-empty
`x-hub-signature`/`authorization` header and `sigContainsKey` the
`signature.includes(IM_SECRET_KEY)` test (line 167).  A mismatch only
logs a warning; the event is stored regardless, and the status depends
only on whether the Firestore `add` succeeds. -/
def ingramWebhook (keySet sigPresent sigContainsKey : Bool) (event : Json)
    (writeOk : Bool) (log : List EventRecord) : IngramOutcome :=
  let warned := keySet && sigPresent && !sigContainsKey
  if writeOk then ⟨200, log ++ [⟨ingramEventType event, event⟩], warned⟩
  else ⟨500, log, warned⟩

/-! ## Sample data shared by concrete instances -/

/-- A one-item cart whose price is the double the storefront sends for
the decimal `19.995`. -/
def sampleItems : List CartItem :=
  [⟨"A1", "Widget", "Acme", toFloat64 (19995/1000), 2⟩]

/-- A concrete shipping address. -/
def sampleAddress : Address := ⟨"Calle 1", "Centro", "06000", "CDMX", "CDMX", none⟩

/-- A concrete customer. -/
def sampleCustomer : Customer := ⟨"Ana", "ana@example.com", "5550000", some sampleAddress⟩

/-- The metadata `createCheckoutSession` attaches for the sample
request. -/
def sampleMetadata : SessionMetadata := metadataOf sampleCustomer sampleAddress sampleItems

/-- A completion event for the sample session `sess_123`. -/
def sampleEvent : StripeEvent := ⟨"checkout.session.completed", ⟨"sess_123", "pi_1", 4000, sampleMetadata⟩⟩

/-- A verified completion event whose metadata has no parsable
`items_json` (for example a session not created by this orchestrator).
-/
def evNoItems : StripeEvent :=
  ⟨"checkout.session.completed", ⟨"sess_bad", "pi_2", 100,
    ⟨"n", "e", "p", "s", "c", "z", "ci", "st", "", none⟩⟩⟩

end Pandishu

namespace Pandishu

/-! ## Claims about the webhooks and the checkout orchestrator -/

/-! ## Claims about the gateway client -/

/-- C7: a sku list of length 0 (or an absent/non-array `skus` field) or
of length greater than 50 is rejected with status 400 before any
upstream interaction; a list of 1..50 skus is not rejected by
validation, enters the token path, and is forwarded to the distributor
once a token is available. -/
theorem getPriceAndAvailability_validation (skus : List String) (tokenOk upstreamOk : Bool) :
    (skus.length = 0 ∨ skus.length > 50 →
      getPriceAndAvailability (some skus) tokenOk upstreamOk = ⟨400, false, false⟩) ∧
    (getPriceAndAvailability none tokenOk upstreamOk = ⟨400, false, false⟩) ∧
    (1 ≤ skus.length → skus.length ≤ 50 →
      (getPriceAndAvailability (some skus) tokenOk upstreamOk).status ≠ 400 ∧
      (getPriceAndAvailability (some skus) tokenOk upstreamOk).tokenRequested = true ∧
      (tokenOk = true →
        (getPriceAndAvailability (some skus) tokenOk upstreamOk).upstreamCalled = true)) := by
  refine ⟨?_, ?_, ?_⟩
  · rintro (h | h)
    · simp [getPriceAndAvailability, h]
    · have h0 : ¬ skus.length = 0 := by omega
      simp [getPriceAndAvailability, h, h0]
  · rfl
  · intro h1 h50
    have hne : ¬ skus.length = 0 := by omega
    have hle : ¬ skus.length > 50 := by omega
    cases tokenOk <;> cases upstreamOk <;>
      simp [getPriceAndAvailability, hne, hle]

/-- Witness for `getPriceAndAvailability_validation` at concrete inputs. -/
theorem getPriceAndAvailability_validation_witness :
    getPriceAndAvailability (some []) true true = ⟨400, false, false⟩ ∧
    (getPriceAndAvailability (some ["A"]) true true).status ≠ 400 ∧
    (getPriceAndAvailability (some ["A"]) true true).upstreamCalled = true := by
  refine ⟨?_, ?_, ?_⟩
  · exact (getPriceAndAvailability_validation [] true true).1 (Or.inl rfl)
  · exact ((getPriceAndAvailability_validation ["A"] true true).2.2 (by decide) (by decide)).1
  · exact ((getPriceAndAvailability_validation ["A"] true true).2.2 (by decide) (by decide)).2.2
      rfl

/-- C8 counterexample: a request with `pageNumber=-5` and `pageSize=-3`
is forwarded upstream with page number `-5` (not `>= 1`) and page size
`-3` (not in `[1,100]`): `parseInt(..) || d` only replaces `NaN` and
`0`, and `Math.min(.., 100)` only clamps from above. -/
theorem searchProducts_negative_page_counterexample :
    (searchProducts ⟨none, none, some (-5), some (-3)⟩ true true).sentOpts =
      some ⟨none, none, -5, -3⟩ ∧
    ¬ (1 : Int) ≤ (searchOptsOf ⟨none, none, some (-5), some (-3)⟩).pageNumber ∧
    ¬ (1 : Int) ≤ (searchOptsOf ⟨none, none, some (-5), some (-3)⟩).pageSize := by
  refine ⟨rfl, by decide, by decide⟩

/-- C8 (amended): the page number sent upstream defaults to 1 when the
parameter is absent, non-numeric or zero, and is `>= 1` whenever the
supplied value is non-negative; the page size defaults to 24 when
absent, non-numeric or zero, never exceeds 100, values above 100 are
clamped to 100, and it is `>= 1` whenever the supplied value is
non-negative — but negative supplied values are forwarded as-is. -/
theorem searchProducts_paging (q : SearchQuery) (upstreamOk : Bool) :
    (q.pageNumber = none → (searchOptsOf q).pageNumber = 1) ∧
    (q.pageSize = none → (searchOptsOf q).pageSize = 24) ∧
    (searchOptsOf q).pageSize ≤ 100 ∧
    (∀ n : Int, q.pageNumber = some n → 0 ≤ n → 1 ≤ (searchOptsOf q).pageNumber) ∧
    (∀ n : Int, q.pageSize = some n → 0 ≤ n → 1 ≤ (searchOptsOf q).pageSize) ∧
    (∀ n : Int, q.pageSize = some n → 100 < n → (searchOptsOf q).pageSize = 100) ∧
    (searchProducts q true upstreamOk).sentOpts = some (searchOptsOf q) := by
  obtain ⟨kw, vd, pn, ps⟩ := q
  refine ⟨?_, ?_, ?_, ?_, ?_, ?_, ?_⟩
  · rintro rfl; rfl
  · rintro rfl; simp [searchOptsOf]
  · cases ps with
    | none => simp [searchOptsOf]
    | some n =>
      by_cases h : n = 0 <;> simp [searchOptsOf, h] <;> omega
  · rintro n rfl hn
    by_cases h : n = 0 <;> simp [searchOptsOf, h] <;> omega
  · rintro n rfl hn
    by_cases h : n = 0 <;> simp [searchOptsOf, h] <;> omega
  · rintro n rfl hn
    have h : ¬ n = 0 := by omega
    simp [searchOptsOf, h]
    omega
  · cases upstreamOk <;> rfl

/-- Witness for `searchProducts_paging` at a concrete query. -/
theorem searchProducts_paging_witness :
    (searchOptsOf ⟨none, none, none, some 250⟩).pageNumber = 1 ∧
    (searchOptsOf ⟨none, none, none, some 250⟩).pageSize = 100 := by
  refine ⟨(searchProducts_paging ⟨none, none, none, some 250⟩ true).1 rfl,
    (searchProducts_paging ⟨none, none, none, some 250⟩ true).2.2.2.2.2.1 250 rfl
      (by decide)⟩

/-! ## Claims about the credential cache -/

/-- C4 counterexample: an exchange whose response declares a 2-hour
validity window (`expires_in = 7200` seconds) is cached with
`tokenExpiry = nowCb + 55 minutes = 3300000`, not the claimed
`now + validityWindow - safetyMargin = 6900000`: the code ignores the
upstream-declared window. -/
theorem getAccessToken_expiry_counterexample :
    (getAccessToken 0 0 (.ok ⟨"tok", 7200⟩) ⟨none, 0⟩).cache.tokenExpiry = 3300000 ∧
    specExpiresAt 0 (7200 * 1000) = 6900000 ∧
    (getAccessToken 0 0 (.ok ⟨"tok", 7200⟩) ⟨none, 0⟩).cache.tokenExpiry ≠
      specExpiresAt 0 (7200 * 1000) := by
  refine ⟨rfl, rfl, by decide⟩

/-- C4 (amended): a cached token is returned without an exchange
whenever the check time is before the stored expiry; otherwise a
credential exchange is performed, and on success the stored expiry is
the callback time plus a fixed 55 minutes (an assumed 60-minute
lifetime minus a 5-minute margin), independent of the validity window
the upstream declared; a token is never served from the cache at or
after its stored expiry. -/
theorem getAccessToken_cache_behavior (now nowCb : Int) (exchange : Except String ExchangeData)
    (s : TokenCache) :
    (∀ t, s.cachedToken = some t → now < s.tokenExpiry →
      getAccessToken now nowCb exchange s = ⟨.ok t, s, false⟩) ∧
    ((s.cachedToken = none ∨ s.tokenExpiry ≤ now) →
      (getAccessToken now nowCb exchange s).exchanged = true) ∧
    (∀ d, exchange = .ok d → (getAccessToken now nowCb exchange s).exchanged = true →
      (getAccessToken now nowCb exchange s).cache.tokenExpiry = nowCb + 55 * 60 * 1000) ∧
    ((getAccessToken now nowCb exchange s).exchanged = false → now < s.tokenExpiry) := by
  obtain ⟨ct, te⟩ := s
  cases ct with
  | none =>
    refine ⟨?_, ?_, ?_, ?_⟩
    · intro t ht
      exact absurd ht (by simp)
    · intro _
      cases exchange <;> simp [getAccessToken, fetchToken]
    · rintro d rfl _
      simp [getAccessToken, fetchToken]
    · intro h
      cases exchange <;> simp [getAccessToken, fetchToken] at h
  | some t0 =>
    by_cases hlt : now < te
    · refine ⟨?_, ?_, ?_, ?_⟩
      · intro t ht _
        simp at ht
        subst ht
        simp [getAccessToken, hlt]
      · rintro (h | h)
        · exact absurd h (by simp)
        · simp only [TokenCache.tokenExpiry] at h
          exact absurd hlt (by omega)
      · rintro d rfl hx
        simp [getAccessToken, hlt] at hx
      · intro _
        exact hlt
    · refine ⟨?_, ?_, ?_, ?_⟩
      · intro t ht h2
        exact absurd h2 hlt
      · intro _
        cases exchange <;> simp [getAccessToken, fetchToken, hlt]
      · rintro d rfl _
        simp [getAccessToken, fetchToken, hlt]
      · intro h
        exfalso
        cases exchange <;> simp [getAccessToken, fetchToken, hlt] at h

/-- Witness for `getAccessToken_cache_behavior` at concrete inputs. -/
theorem getAccessToken_cache_behavior_witness :
    getAccessToken 10 10 (.error "e") ⟨some "tok", 20⟩ = ⟨.ok "tok", ⟨some "tok", 20⟩, false⟩ ∧
    (getAccessToken 0 7 (.ok ⟨"t2", 3600⟩) ⟨none, 0⟩).cache.tokenExpiry = 7 + 55 * 60 * 1000 := by
  refine ⟨(getAccessToken_cache_behavior 10 10 (.error "e") ⟨some "tok", 20⟩).1 "tok" rfl
    (by decide), ?_⟩
  exact (getAccessToken_cache_behavior 0 7 (.ok ⟨"t2", 3600⟩) ⟨none, 0⟩).2.2.1 ⟨"t2", 3600⟩ rfl
    ((getAccessToken_cache_behavior 0 7 (.ok ⟨"t2", 3600⟩) ⟨none, 0⟩).2.1 (Or.inl rfl))

/-- C2 counterexample: two concurrent calls that both pass the cache
check before either exchange resolves perform two credential
exchanges, not one, and each caller receives the token of its own
exchange — here the distinct tokens `tokA` and `tokB`. -/
theorem getAccessToken_no_single_flight_counterexample :
    (tokenRun (initTokenSystem 2)
      [.check 0 0, .check 1 0,
       .resolve 0 5 (.ok ⟨"tokA", 3600⟩),
       .resolve 1 9 (.ok ⟨"tokB", 3600⟩)]).exchanges = 2 ∧
    callResult (tokenRun (initTokenSystem 2)
      [.check 0 0, .check 1 0,
       .resolve 0 5 (.ok ⟨"tokA", 3600⟩),
       .resolve 1 9 (.ok ⟨"tokB", 3600⟩)]) 0 = some (.ok "tokA") ∧
    callResult (tokenRun (initTokenSystem 2)
      [.check 0 0, .check 1 0,
       .resolve 0 5 (.ok ⟨"tokA", 3600⟩),
       .resolve 1 9 (.ok ⟨"tokB", 3600⟩)]) 1 = some (.ok "tokB") := by
  refine ⟨rfl, rfl, rfl⟩

/-- Helper for C2: checks of distinct pending calls performed while
nothing is cached each start one exchange. -/
theorem tokenRun_checks_exchanges (l : List Nat) (t : Int) (s : TokenSystem)
    (hc : s.cache.cachedToken = none)
    (hp : ∀ i ∈ l, s.calls[i]? = some .pending)
    (hnd : l.Nodup) :
    (tokenRun s (l.map (fun i => .check i t))).exchanges = s.exchanges + l.length := by
  induction l generalizing s with
  | nil => simp [tokenRun]
  | cons i l ih =>
    have hpi : s.calls[i]? = some .pending := hp i (List.mem_cons_self i l)
    have hstep : tokenStep s (.check i t) =
        { s with calls := s.calls.set i .awaiting, exchanges := s.exchanges + 1 } := by
      simp [tokenStep, hpi, hc]
    have hnd' : l.Nodup := hnd.of_cons
    have hi : i ∉ l := (List.nodup_cons.mp hnd).1
    have hp' : ∀ j ∈ l, (tokenStep s (.check i t)).calls[j]? = some .pending := by
      intro j hj
      rw [hstep]
      have hne : i ≠ j := fun h => hi (h ▸ hj)
      simpa [List.getElem?_set_ne hne] using hp j (List.mem_cons_of_mem i hj)
    have hc' : (tokenStep s (.check i t)).cache.cachedToken = none := by
      rw [hstep]
      exact hc
    calc (tokenRun s ((i :: l).map (fun i => .check i t))).exchanges
        = (tokenRun (tokenStep s (.check i t)) (l.map (fun i => .check i t))).exchanges := rfl
      _ = (tokenStep s (.check i t)).exchanges + l.length := ih _ hc' hp' hnd'
      _ = s.exchanges + (i :: l).length := by rw [hstep]; simp; omega

/-- C2 (amended): there is no single-flight refresh — every one of `n`
concurrent calls whose cache check runs before any exchange has
resolved starts its own credential exchange, so `n` exchanges are
performed rather than one. -/
theorem getAccessToken_concurrent_exchanges (n : Nat) (t : Int) :
    (tokenRun (initTokenSystem n)
      ((List.range n).map (fun i => .check i t))).exchanges = n := by
  have h := tokenRun_checks_exchanges (List.range n) t (initTokenSystem n) rfl ?_ ?_
  · simpa [initTokenSystem] using h
  · intro i hi
    have : i < n := List.mem_range.mp hi
    simp [initTokenSystem, List.getElem?_replicate, this]
  · exact List.nodup_range n

/-! ## Claims about the webhooks and the checkout orchestrator, continued -/

/-- C9: on the distributor webhook a signature mismatch only logs a
warning and never causes rejection — the event record is appended and
200 is returned whenever the store write succeeds, 500 is returned
exactly when the write fails, and under the mismatch conditions the
warning is logged; the status and the stored log do not depend on the
signature at all. -/
theorem ingramWebhook_advisory_signature (keySet sigPresent sigContainsKey : Bool)
    (event : Json) (writeOk : Bool) (log : List EventRecord) :
    ((ingramWebhook keySet sigPresent sigContainsKey event writeOk log).status = 200 ↔
      writeOk = true) ∧
    ((ingramWebhook keySet sigPresent sigContainsKey event writeOk log).status = 500 ↔
      writeOk = false) ∧
    (writeOk = true →
      (ingramWebhook keySet sigPresent sigContainsKey event writeOk log).log =
        log ++ [⟨ingramEventType event, event⟩]) ∧
    (writeOk = false →
      (ingramWebhook keySet sigPresent sigContainsKey event writeOk log).log = log) ∧
    (keySet = true → sigPresent = true → sigContainsKey = false →
      (ingramWebhook keySet sigPresent sigContainsKey event writeOk log).warned = true) ∧
    (∀ k2 s2 c2 : Bool,
      (ingramWebhook k2 s2 c2 event writeOk log).status =
        (ingramWebhook keySet sigPresent sigContainsKey event writeOk log).status ∧
      (ingramWebhook k2 s2 c2 event writeOk log).log =
        (ingramWebhook keySet sigPresent sigContainsKey event writeOk log).log) := by
  refine ⟨?_, ?_, ?_, ?_, ?_, ?_⟩
  · cases writeOk <;> simp [ingramWebhook]
  · cases writeOk <;> simp [ingramWebhook]
  · rintro rfl; simp [ingramWebhook]
  · rintro rfl; simp [ingramWebhook]
  · rintro rfl rfl rfl; cases writeOk <;> simp [ingramWebhook]
  · intro k2 s2 c2; cases writeOk <;> simp [ingramWebhook]

/-- Witness for `ingramWebhook_advisory_signature`: a mismatching
signature with a healthy store is acknowledged with 200, the record is
stored, and the warning is logged. -/
theorem ingramWebhook_advisory_signature_witness :
    (ingramWebhook true true false (.obj []) true []).status = 200 ∧
    (ingramWebhook true true false (.obj []) true []).log =
      [⟨ingramEventType (.obj []), .obj []⟩] ∧
    (ingramWebhook true true false (.obj []) true []).warned = true := by
  refine ⟨((ingramWebhook_advisory_signature true true false (.obj []) true []).1).mpr rfl,
    ?_, (ingramWebhook_advisory_signature true true false (.obj []) true
      []).2.2.2.2.1 rfl rfl rfl⟩
  have h := (ingramWebhook_advisory_signature true true false (.obj []) true []).2.2.1 rfl
  simpa using h

/-- C10: with a non-empty cart but a missing customer object, or a
customer without an address object, `createCheckoutSession` answers
with a generic 500 (the `TypeError` is caught by the generic handler),
not a 400 validation error, and the Stripe session is never created.
-/
theorem createCheckoutSession_missing_customer (body : CheckoutBody)
    (items : List CartItem) (stripeOk : Bool)
    (hitems : body.items = some items) (hne : items ≠ [])
    (hcust : body.customer = none ∨ ∃ c, body.customer = some c ∧ c.address = none) :
    (createCheckoutSession true body stripeOk).status = 500 ∧
    (createCheckoutSession true body stripeOk).stripeCalled = false ∧
    (createCheckoutSession true body stripeOk).status ≠ 400 := by
  have hlen : ¬ items.length = 0 := by simpa [List.length_eq_zero] using hne
  rcases hcust with h | ⟨c, hc, ha⟩
  · simp [createCheckoutSession, hitems, hlen, h]
  · simp [createCheckoutSession, hitems, hlen, hc, ha]

/-- Witness for `createCheckoutSession_missing_customer` at a concrete
body with one item and no customer. -/
theorem createCheckoutSession_missing_customer_witness :
    (createCheckoutSession true ⟨some sampleItems, none⟩ true).status = 500 ∧
    (createCheckoutSession true ⟨some sampleItems, none⟩ true).stripeCalled = false := by
  have h := createCheckoutSession_missing_customer ⟨some sampleItems, none⟩ sampleItems true
    rfl (by simp [sampleItems]) (Or.inl rfl)
  exact ⟨h.1, h.2.1⟩

/-- C1 counterexample: the order creation is not idempotent — two
sequential deliveries of the same completion event for session
`sess_123`, both acknowledged with 200, leave two orders for that
session identifier in the store, not one. -/
theorem stripeWebhook_duplicate_orders_counterexample :
    ordersForSession "sess_123" (deliverRepeated true true sampleEvent true 2 []) = 2 ∧
    (stripeWebhook true true sampleEvent true []).status = 200 ∧
    (stripeWebhook true true sampleEvent true
      (stripeWebhook true true sampleEvent true []).orders).status = 200 := by
  refine ⟨rfl, rfl, rfl⟩

/-- Helper: appending one order changes the per-session count by one
exactly when the appended order carries that session identifier. -/
theorem ordersForSession_append (sid : String) (os : List Order) (o : Order) :
    ordersForSession sid (os ++ [o]) =
      ordersForSession sid os + if o.stripeSessionId = sid then 1 else 0 := by
  simp only [ordersForSession, List.filter_append]
  split <;> simp_all [List.filter]

/-- C1 (amended): each delivery of a verified completion event whose
metadata carries a parsable items payload appends one more order for
that session — `k` deliveries create `k` orders, every delivery is
acknowledged with 200, and each created order starts with
`status = paid` and `ingramStatus = pending`. -/
theorem stripeWebhook_each_delivery_creates_order (k : Nat) (event : StripeEvent)
    (orders : List Order) (j : Json)
    (htype : event.type = "checkout.session.completed")
    (hjson : event.session.metadata.items_json = some j) :
    ordersForSession event.session.id (deliverRepeated true true event true k orders) =
      ordersForSession event.session.id orders + k ∧
    (stripeWebhook true true event true orders).status = 200 ∧
    (stripeWebhook true true event true orders).orders =
      orders ++ [orderOf event.session j] ∧
    (orderOf event.session j).status = "paid" ∧
    (orderOf event.session j).ingramStatus = "pending" := by
  have hstep : ∀ os : List Order, stripeWebhook true true event true os =
      ⟨200, os ++ [orderOf event.session j]⟩ := by
    intro os
    simp [stripeWebhook, htype, hjson]
  refine ⟨?_, by rw [hstep], by rw [hstep], rfl, rfl⟩
  induction k generalizing orders with
  | zero => simp [deliverRepeated]
  | succ k ih =>
    have : deliverRepeated true true event true (k + 1) orders =
        deliverRepeated true true event true k (orders ++ [orderOf event.session j]) := by
      simp [deliverRepeated, hstep]
    rw [this, ih, ordersForSession_append]
    simp [orderOf]
    omega

/-- Witness for `stripeWebhook_each_delivery_creates_order` at the
sample event, delivered three times. -/
theorem stripeWebhook_each_delivery_creates_order_witness :
    ordersForSession "sess_123" (deliverRepeated true true sampleEvent true 3 []) = 3 ∧
    (stripeWebhook true true sampleEvent true []).status = 200 := by
  have h := stripeWebhook_each_delivery_creates_order 3 sampleEvent []
    (itemsToJson sampleItems) rfl rfl
  exact ⟨h.1, h.2.1⟩

/-- C3 counterexample: a delivery whose signature verifies and whose
store write would succeed is still answered with a non-success 500 —
a completion event whose metadata has no parsable `items_json` — and
no write occurs; so non-success results are not limited to signature
failure and write failure. -/
theorem stripeWebhook_parse_failure_counterexample :
    (stripeWebhook true true evNoItems true []).status = 500 ∧
    (stripeWebhook true true evNoItems true []).orders = [] := by
  refine ⟨rfl, rfl⟩

/-- C3 (amended): the webhook answers 400 exactly on a signature
failure (with Stripe configured), and 500 exactly when Stripe is
unconfigured or a verified completion event fails while being
processed — an unparsable/absent metadata items payload or a failed
durable write; every other delivery is acknowledged with 200.  On a
signature failure nothing is written and the business payload is never
examined (the outcome does not depend on the event at all), and a
parse failure writes nothing either. -/
theorem stripeWebhook_status_characterization (cfg sig : Bool) (event : StripeEvent)
    (writeOk : Bool) (orders : List Order) :
    ((stripeWebhook cfg sig event writeOk orders).status = 400 ↔
      (cfg = true ∧ sig = false)) ∧
    ((stripeWebhook cfg sig event writeOk orders).status = 500 ↔
      (cfg = false ∨ (cfg = true ∧ sig = true ∧
        event.type = "checkout.session.completed" ∧
        (event.session.metadata.items_json = none ∨ writeOk = false)))) ∧
    ((stripeWebhook cfg sig event writeOk orders).status = 200 ↔
      (cfg = true ∧ sig = true ∧
        (event.type = "checkout.session.completed" →
          (event.session.metadata.items_json ≠ none ∧ writeOk = true)))) ∧
    (sig = false → (stripeWebhook cfg sig event writeOk orders).orders = orders) ∧
    (∀ e2 : StripeEvent, stripeWebhook cfg false event writeOk orders =
      stripeWebhook cfg false e2 writeOk orders) ∧
    (event.session.metadata.items_json = none →
      (stripeWebhook cfg sig event writeOk orders).orders = orders) := by
  cases cfg <;> cases sig
  all_goals
    by_cases ht : event.type = "checkout.session.completed" <;>
    cases hj : event.session.metadata.items_json <;>
    cases writeOk <;>
    simp [stripeWebhook, ht, hj]

/-- Witness for `stripeWebhook_status_characterization`: a signature
failure is answered 400 and writes nothing. -/
theorem stripeWebhook_status_characterization_witness :
    (stripeWebhook true false sampleEvent true []).status = 400 ∧
    (stripeWebhook true false sampleEvent true []).orders = [] := by
  refine ⟨((stripeWebhook_status_characterization true false sampleEvent true []).1).mpr
    ⟨rfl, rfl⟩,
    (stripeWebhook_status_characterization true false sampleEvent true []).2.2.2.1 rfl⟩

/-- Helper for C5: reading the serialized item list back yields
exactly the original items' tuples. -/
theorem orderItemsOfJsonList_map (items : List CartItem) :
    orderItemsOfJsonList (items.map itemToJson) = some (items.map orderItemOf) := by
  induction items with
  | nil => rfl
  | cons i rest ih =>
    have h1 : orderItemOfJson (itemToJson i) = some (orderItemOf i) := rfl
    simp [orderItemsOfJsonList, h1, ih]

/-- C5: round-trip — for a valid checkout request the metadata
embedded by `createCheckoutSession` carries exactly the serialized
items, the webhook stores that payload unchanged in the created
order, and reading it back yields exactly the original items'
`{sku, quantity, unitPrice, name, vendor}` tuples. -/
theorem checkout_items_roundtrip (items : List CartItem) (c : Customer) (a : Address)
    (sid payRef : String) (amt : Int) (orders : List Order)
    (hne : items ≠ []) (hca : c.address = some a) :
    (createCheckoutSession true ⟨some items, some c⟩ true).metadata =
      some (metadataOf c a items) ∧
    (stripeWebhook true true
        ⟨"checkout.session.completed", ⟨sid, payRef, amt, metadataOf c a items⟩⟩
        true orders).orders =
      orders ++ [orderOf ⟨sid, payRef, amt, metadataOf c a items⟩ (itemsToJson items)] ∧
    (orderOf ⟨sid, payRef, amt, metadataOf c a items⟩ (itemsToJson items)).items =
      itemsToJson items ∧
    orderItemsOfJson (itemsToJson items) = some (items.map orderItemOf) ∧
    (∀ i : CartItem, orderItemOf i = ⟨i.sku, (i.quantity : ℚ), i.price, i.name, i.vendor⟩) := by
  have hlen : ¬ items.length = 0 := by simpa [List.length_eq_zero] using hne
  refine ⟨?_, ?_, rfl, ?_, fun i => rfl⟩
  · simp [createCheckoutSession, hlen, hca]
  · simp [stripeWebhook, metadataOf]
  · simp [orderItemsOfJson, itemsToJson, orderItemsOfJsonList_map]

/-- Witness for `checkout_items_roundtrip` at the sample request. -/
theorem checkout_items_roundtrip_witness :
    orderItemsOfJson (itemsToJson sampleItems) = some (sampleItems.map orderItemOf) := by
  exact (checkout_items_roundtrip sampleItems sampleCustomer sampleAddress "sess_123"
    "pi_1" 4000 [] (by simp [sampleItems]) rfl).2.2.2.1

/-! ## Evaluating the double-precision model (C6) -/

/-- `Int.log 2` of a rational sandwiched between consecutive powers of
two. -/
theorem int_log2_eq (x : ℚ) (e : ℤ) (h0 : 0 < x) (h1 : (2:ℚ) ^ e ≤ x)
    (h2 : x < (2:ℚ) ^ (e + 1)) : Int.log 2 x = e := by
  have hb : 1 < (2 : ℕ) := one_lt_two
  have hle : e ≤ Int.log 2 x := by
    rw [← Int.zpow_le_iff_le_log hb h0]
    exact_mod_cast h1
  have hlt : Int.log 2 x < e + 1 := by
    rw [← Int.lt_zpow_iff_log_lt hb h0]
    exact_mod_cast h2
  omega

/-- Evaluation rule for `toFloat64Pos` once the binade and the rounded
significand are known. -/
theorem toFloat64Pos_eval (x : ℚ) (e m : ℤ) (h0 : 0 < x) (h1 : (2:ℚ) ^ e ≤ x)
    (h2 : x < (2:ℚ) ^ (e + 1)) (hm : rne (x * 2 ^ ((52 : ℤ) - e)) = m) :
    toFloat64Pos x = (m : ℚ) * 2 ^ (e - 52) := by
  simp only [toFloat64Pos]
  rw [int_log2_eq x e h0 h1 h2, hm]

/-- `toFloat64` on a positive rational. -/
theorem toFloat64_of_pos (x : ℚ) (h0 : 0 < x) : toFloat64 x = toFloat64Pos x := by
  simp only [toFloat64]
  rw [if_neg h0.ne', if_neg (not_lt.mpr h0.le)]

/-- The double nearest to the decimal `19.995`. -/
theorem toFloat64_19995_div_1000 :
    toFloat64 (19995/1000 : ℚ) = 5628092159329567 / 281474976710656 := by
  rw [toFloat64_of_pos _ (by norm_num),
    toFloat64Pos_eval (19995/1000 : ℚ) 4 5628092159329567 (by norm_num) (by norm_num)
      (by norm_num) ?_]
  · norm_num
  · simp only [rne]
    norm_num

/-- The double product `19.995 * 100` is exactly `1999.5`: the exact
product of the double of `19.995` with `100` lies just below `1999.5`
but rounds up to it at 53 bits. -/
theorem toFloat64_19995_times_100 :
    toFloat64 ((5628092159329567 / 281474976710656 : ℚ) * 100) = 3999/2 := by
  rw [toFloat64_of_pos _ (by norm_num),
    toFloat64Pos_eval _ 10 8793893998952448 (by norm_num) (by norm_num)
      (by norm_num) ?_]
  · norm_num
  · simp only [rne]
    norm_num

/-- The double nearest to the decimal `1.005`. -/
theorem toFloat64_201_div_200 :
    toFloat64 (201/200 : ℚ) = 1131529406376837 / 1125899906842624 := by
  rw [toFloat64_of_pos _ (by norm_num),
    toFloat64Pos_eval (201/200 : ℚ) 0 4526117625507348 (by norm_num) (by norm_num)
      (by norm_num) ?_]
  · norm_num
  · simp only [rne]
    norm_num

/-- The double product `1.005 * 100` is `100.49999999999999`, strictly
below the half-integer boundary. -/
theorem toFloat64_201_times_100 :
    toFloat64 ((1131529406376837 / 1125899906842624 : ℚ) * 100) =
      7072058789855231 / 70368744177664 := by
  rw [toFloat64_of_pos _ (by norm_num),
    toFloat64Pos_eval _ 6 7072058789855231 (by norm_num) (by norm_num)
      (by norm_num) ?_]
  · norm_num
  · simp only [rne]
    norm_num

/-- `Math.round(price * 100)` for the double of `19.995` is 2000. -/
theorem unitAmount_of_19995 : unitAmount (toFloat64 (19995/1000 : ℚ)) = 2000 := by
  rw [unitAmount, toFloat64_19995_div_1000, toFloat64_19995_times_100]
  simp only [jsRound]
  norm_num

/-- `Math.round(price * 100)` for the double of `1.005` is 100. -/
theorem unitAmount_of_201_200 : unitAmount (toFloat64 (201/200 : ℚ)) = 100 := by
  rw [unitAmount, toFloat64_201_div_200, toFloat64_201_times_100]
  simp only [jsRound]
  norm_num

/-- C6 counterexample: for unit price `1.005` the amount sent to the
processor is 100 cents, while `1.005 * 100` rounded to the nearest
integer is 101 — the double-precision product `100.49999999999999`
falls below the half-integer boundary, so the claimed rounding
contract does not hold for every item. -/
theorem unitAmount_exact_rounding_counterexample :
    unitAmount (toFloat64 (201/200 : ℚ)) = 100 ∧
    specUnitAmount (201/200 : ℚ) = 101 ∧
    unitAmount (toFloat64 (201/200 : ℚ)) ≠ specUnitAmount (201/200 : ℚ) := by
  have h1 : unitAmount (toFloat64 (201/200 : ℚ)) = 100 := unitAmount_of_201_200
  have h2 : specUnitAmount (201/200 : ℚ) = 101 := by
    rw [specUnitAmount]
    simp only [jsRound]
    norm_num
  exact ⟨h1, h2, by rw [h1, h2]; decide⟩

/-- C6 (amended): the line-item amount is `Math.round` of the
double-precision product `price * 100`; for the spec's own scenario
(unit price `19.995`, quantity 2) this agrees with exact
nearest-integer rounding and the amount sent to Stripe is 2000 cents,
but for unit price `1.005` the amount is 100 cents where exact
rounding gives 101. -/
theorem createCheckoutSession_line_item_amounts :
    (createCheckoutSession true ⟨some sampleItems, some sampleCustomer⟩ true).lineItems =
      some [⟨"Widget", "SKU: A1 | Vendor: Acme", "A1", "Acme", 2000, 2⟩] ∧
    unitAmount (toFloat64 (19995/1000 : ℚ)) = specUnitAmount (19995/1000 : ℚ) ∧
    specUnitAmount (19995/1000 : ℚ) = 2000 ∧
    unitAmount (toFloat64 (201/200 : ℚ)) = 100 := by
  have hspec : specUnitAmount (19995/1000 : ℚ) = 2000 := by
    rw [specUnitAmount]
    simp only [jsRound]
    norm_num
  have hli : lineItemOf ⟨"A1", "Widget", "Acme", toFloat64 (19995/1000), 2⟩ =
      ⟨"Widget", "SKU: A1 | Vendor: Acme", "A1", "Acme", 2000, 2⟩ := by
    simp [lineItemOf, unitAmount_of_19995]
  refine ⟨?_, by rw [unitAmount_of_19995, hspec], hspec, unitAmount_of_201_200⟩
  simp [createCheckoutSession, sampleItems, sampleCustomer, sampleAddress, hli]

end Pandishu
